import Mathlib

/-!
Shallow embedding of the `custom-error` crate (diagnostic rendering engine):
the colour helpers (`src/colour.rs`), the `Context`/`Highlight` data model and
its `Display` implementation (`src/context.rs`), the `CustomError` diagnostic
and its `Display` implementation (`src/error.rs`), and the `CustomErrors`
collection and its `Display` implementation (`src/errors.rs`).

Rendering is modelled as pure functions producing the list of output lines
(each `writeln!` contributes one line) or, for `CustomErrors`, the final
string.  The crate is built without the optional `ansi_term` feature, so every
colour helper is the identity on its input, exactly as in `colour.rs`.
The `f64` computation `((x as f64).log10().ceil()) as usize` in
`Context::fmt` is modelled exactly over the naturals (`ceilLog10`), including
the saturating cast of `-inf` to `0` for `x = 0`.
-/

namespace CustomErrorLib

/-- `colour.rs::red` with the `ansi_term` feature disabled: identity. -/
def red (s : String) : String := s

/-- `colour.rs::yellow` with the `ansi_term` feature disabled: identity. -/
def yellow (s : String) : String := s

/-- `colour.rs::blue` with the `ansi_term` feature disabled: identity. -/
def blue (s : String) : String := s

/-- `colour.rs::green` with the `ansi_term` feature disabled: identity. -/
def green (s : String) : String := s

/-- Modelled from the spec: `grey` is called by `Context`'s renderer but is not
defined in the colour module of the sources; per §6 of the spec the
colorization backend is a pure function that is the identity no-op when
colouring is disabled, and must not alter the text widths used by alignment. -/
def grey (s : String) : String := s

/-- `error.rs::ErrorLevel`. -/
inductive ErrorLevel where
  | Error
  | Warning
  | Info
deriving DecidableEq, Repr

/-- `error.rs::ErrorLevel::in_colour`. -/
def ErrorLevel.in_colour : ErrorLevel → String → String
  | .Error, text => red text
  | .Warning, text => yellow text
  | .Info, text => blue text

/-- `error.rs::impl Display for ErrorLevel`. -/
def ErrorLevel.display : ErrorLevel → String
  | .Error => red "error"
  | .Warning => yellow "warning"
  | .Info => blue "info"

/-- `context.rs::Highlight`. -/
structure Highlight where
  line : Nat
  column : Nat
  length : Nat
  note : Option String
  level : ErrorLevel
deriving DecidableEq, Repr

/-- `context.rs::Highlight::new`. -/
def Highlight.new (line column length : Nat) : Highlight :=
  { line := line, column := column, length := length, note := none,
    level := ErrorLevel.Error }

/-- `context.rs::Highlight::note`. -/
def Highlight.addNote (hl : Highlight) (note : String) : Highlight :=
  { hl with note := some note }

/-- `context.rs::Highlight::warning`. -/
def Highlight.warning (hl : Highlight) : Highlight :=
  { hl with level := ErrorLevel.Warning }

/-- `context.rs::Highlight::info`. -/
def Highlight.info (hl : Highlight) : Highlight :=
  { hl with level := ErrorLevel.Info }

/-- `context.rs::impl From<(usize, usize, usize)> for Highlight`. -/
def Highlight.ofTriple : Nat × Nat × Nat → Highlight
  | (l, c, k) => Highlight.new l c k

/-- `context.rs::impl From<(usize, usize)> for Highlight`. -/
def Highlight.ofPair : Nat × Nat → Highlight
  | (c, k) => Highlight.new 0 c k

/-- `context.rs::Context`. -/
structure Context where
  lines : List String
  linenumber : Option Nat
  highlights : List Highlight
  file : Option String
deriving DecidableEq, Repr

/-- Rust `" ".repeat n` / the blank produced by a width-`n` format pad. -/
def spaces (n : Nat) : String := String.mk (List.replicate n ' ')

/-- Rust `"─".repeat n`. -/
def dashes (n : Nat) : String := String.mk (List.replicate n '─')

/-- Rust right-aligned formatting `{:>w$}`: pad on the left with spaces up to
width `w` (a minimum width: longer strings are kept whole). -/
def padLeft (s : String) (w : Nat) : String := spaces (w - s.length) ++ s

/-- `ceil (log10 x)` over the naturals, as computed by
`(x as f64).log10().ceil() as usize` in `Context::fmt` (for `x = 0` the float
result is `-inf` and the saturating `as usize` cast yields `0`).  Implemented
with explicit fuel so that it evaluates by kernel reduction. -/
def ceilLog10Aux : Nat → Nat → Nat
  | 0, _ => 0
  | fuel + 1, x => if x ≤ 1 then 0 else ceilLog10Aux fuel ((x + 9) / 10) + 1

/-- `ceil (log10 x)` over the naturals; see `ceilLog10Aux`. -/
def ceilLog10 (x : Nat) : Nat := ceilLog10Aux x x

/-- `Context::fmt`'s `linenumber_padding`:
`((self.linenumber.unwrap_or(1) + self.lines.len()) as f64).log10().ceil() as usize`. -/
def Context.linenumber_padding (c : Context) : Nat :=
  ceilLog10 (c.linenumber.getD 1 + c.lines.length)

/-- The one or two header lines of `Context::fmt` (lines 160-193): the bracketed
file header (with `:line:column` exactly when there is exactly one highlight
and a linenumber) plus a connector line when a file is present, or the bare
opening glyph line otherwise. -/
def Context.headerLines (c : Context) : List String :=
  match c.file with
  | some file =>
      [spaces c.linenumber_padding ++ " " ++ blue "╭──" ++ "[" ++ file ++
          (if c.highlights.length == 1 then
            (match c.linenumber with
             | some l =>
                 let hl := c.highlights.headD (Highlight.new 0 0 0)
                 ":" ++ toString (l + hl.line) ++ ":" ++ toString hl.column
             | none => "")
          else "") ++ "]",
       spaces c.linenumber_padding ++ " " ++ blue "│"]
  | none => [spaces c.linenumber_padding ++ " " ++ blue "╷"]

/-- One underline row of `Context::fmt` (lines 210-225):
`"{:>pad$} {} {}{}{}"` with a blank gutter cell, the `·` connector, `column`
spaces, `length` underline characters and the optional note. -/
def Context.underlineRow (pad : Nat) (hl : Highlight) : String :=
  padLeft "" pad ++ " " ++ blue "·" ++ " " ++ spaces hl.column ++
    hl.level.in_colour (dashes hl.length) ++
    hl.level.in_colour ((hl.note.map (fun n => " " ++ n)).getD "")

/-- The block of rows produced by iteration `index = i` of the body loop of
`Context::fmt` (lines 197-228): the numbered primary row for line `i`
followed by one underline row per highlight with `highlight.line == i`,
in attachment order. -/
def Context.rowBlock (c : Context) (i : Nat) : List String :=
  (padLeft (grey (toString (c.linenumber.getD 0 + i))) c.linenumber_padding ++
      " " ++ blue "│" ++ " " ++ c.lines.getD i "") ::
    (c.highlights.filter (fun hl => hl.line == i)).map
      (Context.underlineRow c.linenumber_padding)

/-- The body rows of `Context::fmt`: `self.lines.iter().enumerate()` is
modelled as iteration over the indices `0, …, lines.len() - 1`. -/
def Context.bodyLines (c : Context) : List String :=
  (List.range c.lines.length).flatMap c.rowBlock

/-- The closing row of `Context::fmt` (line 230). -/
def Context.footerLine (c : Context) : String :=
  spaces c.linenumber_padding ++ " " ++ blue "╵"

/-- `context.rs::impl Display for Context`, as the list of output lines
(every write in the implementation is a `writeln!`). -/
def Context.render (c : Context) : List String :=
  c.headerLines ++ c.bodyLines ++ [c.footerLine]

/-- `error.rs::CustomError<T>`. -/
structure CustomError (T : Type) where
  kind : T
  level : ErrorLevel
  title : Option String
  message : Option String
  help : Option String
  url : Option String
  context : List Context
  location : Option String
deriving DecidableEq, Repr

/-- `error.rs::CustomError::new`. -/
def CustomError.new {T : Type} (kind : T) : CustomError T :=
  { kind := kind, level := ErrorLevel.Error, title := none, message := none,
    help := none, url := none, context := [], location := none }

/-- `error.rs::CustomError::convert`; the Rust `O: From<T>` bound is the
explicit kind mapping `f`. -/
def CustomError.convert {T O : Type} (f : T → O) (e : CustomError T) :
    CustomError O :=
  { kind := f e.kind, level := e.level, title := e.title,
    message := e.message, help := e.help, url := e.url,
    context := e.context, location := e.location }

/-- `error.rs::CustomError::is_error`. -/
def CustomError.is_error {T : Type} (e : CustomError T) : Bool :=
  e.level == ErrorLevel.Error

/-- `error.rs::CustomError::is_warning`. -/
def CustomError.is_warning {T : Type} (e : CustomError T) : Bool :=
  e.level == ErrorLevel.Warning

/-- `error.rs::CustomError::is_info`. -/
def CustomError.is_info {T : Type} (e : CustomError T) : Bool :=
  e.level == ErrorLevel.Info

/-- `error.rs::impl Display for CustomError`, as the list of output lines.
`tn` stands for `std::any::type_name::<T>()` and `dbg` for the `Debug`
formatting of the kind, both opaque inputs of the Rust rendering. -/
def CustomError.render {T : Type} (tn : String) (dbg : T → String)
    (e : CustomError T) : List String :=
  (match e.title with
   | some title =>
       [e.level.display ++ ": " ++ title ++ " (" ++ tn ++ "::" ++
         dbg e.kind ++ ")"]
   | none => [e.level.display ++ ": " ++ tn ++ "::" ++ dbg e.kind]) ++
  (match e.url with
   | some url => [blue "url" ++ ": " ++ blue url]
   | none => []) ++
  (match e.location with
   | some location => ["  " ++ blue "-->" ++ " generated at: " ++ location]
   | none => []) ++
  e.context.flatMap Context.render ++
  (match e.message with
   | some message => [message]
   | none => []) ++
  (match e.help with
   | some help => ["  " ++ blue "help" ++ ": " ++ help]
   | none => [])

/-- The string a `CustomError` writes to the formatter: each of its output
lines terminated by a newline. -/
def CustomError.renderString {T : Type} (tn : String) (dbg : T → String)
    (e : CustomError T) : String :=
  String.join ((e.render tn dbg).map (fun line => line ++ "\n"))

/-- `errors.rs::CustomErrors<T>`. -/
structure CustomErrors (T : Type) where
  errors : List (CustomError T)
deriving DecidableEq, Repr

/-- `errors.rs::CustomErrors::new`. -/
def CustomErrors.new {T : Type} : CustomErrors T := { errors := [] }

/-- `errors.rs::CustomErrors::is_empty`. -/
def CustomErrors.is_empty {T : Type} (es : CustomErrors T) : Bool :=
  es.errors.isEmpty

/-- `errors.rs::CustomErrors::any_errors`. -/
def CustomErrors.any_errors {T : Type} (es : CustomErrors T) : Bool :=
  es.errors.any (fun e => e.is_error)

/-- `errors.rs::CustomErrors::push` (`self.errors.push(error)`). -/
def CustomErrors.push {T : Type} (es : CustomErrors T) (e : CustomError T) :
    CustomErrors T :=
  { errors := es.errors ++ [e] }

/-- `errors.rs::impl AddAssign<CustomError<T>> for CustomErrors`
(`self.errors.push(rhs)`). -/
def CustomErrors.addAssign {T : Type} (es : CustomErrors T)
    (rhs : CustomError T) : CustomErrors T :=
  { errors := es.errors ++ [rhs] }

/-- `errors.rs::CustomErrors::convert`, element-wise `CustomError::convert`. -/
def CustomErrors.convert {T O : Type} (f : T → O) (es : CustomErrors T) :
    CustomErrors O :=
  { errors := es.errors.map (CustomError.convert f) }

/-- The trailing summary of `errors.rs::impl Display for CustomErrors`
(lines 158-171), given the three running severity counts. -/
def CustomErrors.summary (errors warnings infos : Nat) : String :=
  if errors + warnings + infos = 0 then
    "\n" ++ green "no messages!" ++ "\n"
  else
    "\nencountered: " ++
      (if errors > 0 then toString errors ++ " " ++ red "errors" else "") ++
      (if warnings > 0 then toString warnings ++ " " ++ yellow "warnings"
       else "") ++
      (if infos > 0 then toString infos ++ " " ++ blue "info messages"
       else "")

/-- `errors.rs::impl Display for CustomErrors`, as the produced string:
`writeln!(f, "{}", error)` for every element (its full rendering plus an
extra newline, i.e. a blank separator line), then the summary computed from
the running `is_error`/`is_warning`/`is_info` counts. -/
def CustomErrors.render {T : Type} (tn : String) (dbg : T → String)
    (es : CustomErrors T) : String :=
  String.join (es.errors.map
      (fun e => CustomError.renderString tn dbg e ++ "\n")) ++
    CustomErrors.summary
      (es.errors.countP (fun e => e.is_error))
      (es.errors.countP (fun e => e.is_warning))
      (es.errors.countP (fun e => e.is_info))

/-- The gutter width asserted by the specification (claim C1), following the
spec's words: `ceil(log10(max_line_number + 1))` with a minimum of 1, where
`max_line_number` is the largest line number that will appear — the last
primary line's number `linenumber.getD 0 + lines.length - 1` (the renderer
numbers from `linenumber.unwrap_or(0)`).  Stated only for comparison with the
width the code actually computes. -/
def specGutterWidthC1 (c : Context) : Nat :=
  max 1 (ceilLog10 (c.linenumber.getD 0 + c.lines.length - 1 + 1))

theorem in_colour_id (lvl : ErrorLevel) (t : String) : lvl.in_colour t = t := by
  cases lvl <;> rfl

theorem length_spaces (n : Nat) : (spaces n).length = n := by
  simp [spaces, String.length]

theorem padLeft_empty (w : Nat) : padLeft "" w = spaces w := by
  simp [padLeft]

theorem length_padLeft (s : String) (w : Nat) :
    (padLeft s w).length = max w s.length := by
  simp only [padLeft, String.length_append, length_spaces]
  omega

theorem ceilLog10Aux_eq_clog (fuel : Nat) :
    ∀ x : Nat, x ≤ fuel → ceilLog10Aux fuel x = Nat.clog 10 x := by
  induction fuel with
  | zero =>
      intro x hx
      have hx0 : x = 0 := Nat.le_zero.mp hx
      subst hx0
      simp [ceilLog10Aux]
  | succ fuel ih =>
      intro x hx
      by_cases h1 : x ≤ 1
      · simp [ceilLog10Aux, h1, Nat.clog_of_right_le_one h1]
      · have h2 : 2 ≤ x := by omega
        rw [Nat.clog_of_two_le (by norm_num) h2]
        simp only [ceilLog10Aux, if_neg h1]
        congr 1
        exact ih ((x + 9) / 10) (by omega)

theorem ceilLog10_eq_clog (x : Nat) : ceilLog10 x = Nat.clog 10 x :=
  ceilLog10Aux_eq_clog x x le_rfl

theorem flatMap_split {α β : Type} (l : List α) (f : α → List β) (i : Nat)
    (h : i < l.length) :
    l.flatMap f =
      (l.take i).flatMap f ++ f l[i] ++ (l.drop (i + 1)).flatMap f := by
  conv_lhs => rw [← List.take_append_drop i l]
  rw [List.flatMap_append, List.drop_eq_getElem_cons h, List.flatMap_cons,
    List.append_assoc]

theorem range_flatMap_split {β : Type} (n : Nat) (f : Nat → List β) (i : Nat)
    (h : i < n) :
    (List.range n).flatMap f =
      ((List.range n).take i).flatMap f ++ f i ++
        ((List.range n).drop (i + 1)).flatMap f := by
  have h2 : i < (List.range n).length := by simpa using h
  have hs := flatMap_split (List.range n) f i h2
  simpa using hs

theorem flatMap_congr_mem {α β : Type} {l : List α} {f g : α → List β}
    (h : ∀ a ∈ l, f a = g a) : l.flatMap f = l.flatMap g := by
  induction l with
  | nil => rfl
  | cons a l ih =>
      simp only [List.flatMap_cons]
      rw [h a (by simp), ih (fun b hb => h b (by simp [hb]))]

theorem counts_sum {T : Type} (l : List (CustomError T)) :
    l.countP (fun e => e.is_error) + l.countP (fun e => e.is_warning) +
      l.countP (fun e => e.is_info) = l.length := by
  induction l with
  | nil => rfl
  | cons e l ih =>
      simp only [CustomError.is_error, CustomError.is_warning,
        CustomError.is_info] at ih ⊢
      rw [List.countP_cons, List.countP_cons, List.countP_cons,
        List.length_cons]
      cases he : e.level <;> simp [he] <;> omega

/-- C9: converting a two-element tuple `(a, b)` into a `Highlight` yields line
offset `0`, column `a`, length `b`, no note and severity Error (so the
two-tuple shorthand always targets the first line of the context); converting
a three-element tuple `(l, c, k)` yields line offset `l`, column `c`, length
`k`, no note and severity Error. -/
theorem claimC9_tuple_conversions (a b l c k : Nat) :
    Highlight.ofPair (a, b) =
      { line := 0, column := a, length := b, note := none,
        level := ErrorLevel.Error } ∧
    Highlight.ofTriple (l, c, k) =
      { line := l, column := c, length := k, note := none,
        level := ErrorLevel.Error } :=
  ⟨rfl, rfl⟩

/-- C10: appending a diagnostic with the `+=` operator (`AddAssign`) produces
exactly the same collection state as `push`: both append the diagnostic at the
end of the error list and change nothing else. -/
theorem claimC10_addAssign_eq_push {T : Type} (es : CustomErrors T)
    (e : CustomError T) :
    es.addAssign e = es.push e ∧ (es.push e).errors = es.errors ++ [e] :=
  ⟨rfl, rfl⟩

/-- C7: `convert` re-tags only the kind and preserves every other field
(level, title, message, help, url, contexts, location) unchanged; the same
holds element-wise for collections; consequently converting and then
converting back with an inverse mapping preserves every non-kind field
bit-for-bit. -/
theorem claimC7_convert_preserves_fields {T O : Type} (f : T → O) (g : O → T)
    (e : CustomError T) (es : CustomErrors T) :
    ((e.convert f).kind = f e.kind ∧ (e.convert f).level = e.level ∧
      (e.convert f).title = e.title ∧ (e.convert f).message = e.message ∧
      (e.convert f).help = e.help ∧ (e.convert f).url = e.url ∧
      (e.convert f).context = e.context ∧
      (e.convert f).location = e.location) ∧
    (es.convert f).errors = es.errors.map (CustomError.convert f) ∧
    (((e.convert f).convert g).level = e.level ∧
      ((e.convert f).convert g).title = e.title ∧
      ((e.convert f).convert g).message = e.message ∧
      ((e.convert f).convert g).help = e.help ∧
      ((e.convert f).convert g).url = e.url ∧
      ((e.convert f).convert g).context = e.context ∧
      ((e.convert f).convert g).location = e.location) :=
  ⟨⟨rfl, rfl, rfl, rfl, rfl, rfl, rfl, rfl⟩, rfl,
    rfl, rfl, rfl, rfl, rfl, rfl, rfl⟩

/-- C5: rendering a diagnostic produces its parts in fixed order — the
severity+title header line (severity+type-qualified kind if no title), then
the url line if present, then the location line if present, then each attached
context's full render in attachment order, then the message line if present,
then the help line if present; with all optional fields empty and no contexts
exactly the mandatory header line is produced. -/
theorem claimC5_render_order {T : Type} (tn : String) (dbg : T → String)
    (e : CustomError T) :
    e.render tn dbg =
      (match e.title with
       | some title =>
           [e.level.display ++ ": " ++ title ++ " (" ++ tn ++ "::" ++
             dbg e.kind ++ ")"]
       | none => [e.level.display ++ ": " ++ tn ++ "::" ++ dbg e.kind]) ++
        (e.url.map (fun url => blue "url" ++ ": " ++ blue url)).toList ++
        (e.location.map
          (fun location =>
            "  " ++ blue "-->" ++ " generated at: " ++ location)).toList ++
        e.context.flatMap Context.render ++
        (e.message.map (fun message => message)).toList ++
        (e.help.map (fun help => "  " ++ blue "help" ++ ": " ++ help)).toList ∧
    (e.title = none → e.url = none → e.location = none → e.context = [] →
      e.message = none → e.help = none →
      e.render tn dbg = [e.level.display ++ ": " ++ tn ++ "::" ++
        dbg e.kind]) := by
  constructor
  · rcases e with ⟨kind, level, title, message, help, url, context, location⟩
    cases url <;> cases location <;> cases message <;> cases help <;> rfl
  · intro ht hu hl hc hm hh
    rcases e with ⟨kind, level, title, message, help, url, context, location⟩
    simp only at ht hu hl hc hm hh
    subst ht hu hl hc hm hh
    simp [CustomError.render]

/-- C5 witness: a diagnostic with all optional fields empty renders exactly
the mandatory header line. -/
theorem claimC5_witness :
    CustomError.render "T" (fun n : Nat => toString n) (CustomError.new 0) =
      ["error: T::0"] := by
  have h := (claimC5_render_order "T" (fun n : Nat => toString n)
    (CustomError.new 0)).2 rfl rfl rfl rfl rfl rfl
  exact h.trans (by decide)

/-- C6: rendering a collection concatenates each element's render, each
followed by a blank line, and ends with a summary: the positive
"no messages!" notice exactly when the collection is empty, otherwise the
counts for each severity present in Error, Warning, Info order, omitting zero
counts; in particular an empty collection renders only the "no messages"
summary with no diagnostic bodies. -/
theorem claimC6_render_summary {T : Type} (tn : String) (dbg : T → String)
    (es : CustomErrors T) :
    es.render tn dbg =
      String.join (es.errors.map
          (fun e => CustomError.renderString tn dbg e ++ "\n")) ++
        (if es.errors.length = 0 then "\n" ++ green "no messages!" ++ "\n"
         else
           "\nencountered: " ++
             (if es.errors.countP (fun e => e.is_error) > 0 then
               toString (es.errors.countP (fun e => e.is_error)) ++ " " ++
                 red "errors"
              else "") ++
             (if es.errors.countP (fun e => e.is_warning) > 0 then
               toString (es.errors.countP (fun e => e.is_warning)) ++ " " ++
                 yellow "warnings"
              else "") ++
             (if es.errors.countP (fun e => e.is_info) > 0 then
               toString (es.errors.countP (fun e => e.is_info)) ++ " " ++
                 blue "info messages"
              else "")) ∧
    (es.errors = [] →
      es.render tn dbg = "\n" ++ green "no messages!" ++ "\n") := by
  constructor
  · have hs := counts_sum es.errors
    rw [CustomErrors.render, CustomErrors.summary]
    congr 1
    exact if_congr (by omega) rfl rfl
  · intro h
    simp only [CustomErrors.render, CustomErrors.summary, h]
    rfl

/-- C6 witness: the empty collection renders only the "no messages" summary. -/
theorem claimC6_witness :
    CustomErrors.render "T" (fun n : Nat => toString n)
        ({ errors := [] } : CustomErrors Nat) =
      "\n" ++ green "no messages!" ++ "\n" :=
  (claimC6_render_summary "T" (fun n : Nat => toString n) { errors := [] }).2
    rfl

/-- C2: a highlight with line offset `i`, column `c` and length `k`, where `i`
is a valid index into the context's lines, produces an underline row
immediately following primary line `i`'s row: a blank gutter cell, the
connector glyph, exactly `c` spaces, `k` underline characters, and the note
(prefixed by one space) when present; several highlights sharing a line offset
each produce their own row, in attachment order (the filtered list below
keeps the attachment order). -/
theorem claimC2_underline_rows (c : Context) (i : Nat)
    (h : i < c.lines.length) :
    (∃ pre post, c.render =
        pre ++
          ((padLeft (grey (toString (c.linenumber.getD 0 + i)))
                c.linenumber_padding ++ " " ++ blue "│" ++ " " ++
              c.lines.getD i "") ::
            (c.highlights.filter (fun hl => hl.line == i)).map
              (Context.underlineRow c.linenumber_padding)) ++ post) ∧
    (∀ hl : Highlight,
      Context.underlineRow c.linenumber_padding hl =
        spaces c.linenumber_padding ++ " " ++ blue "·" ++ " " ++
          spaces hl.column ++ dashes hl.length ++
          ((hl.note.map (fun n => " " ++ n)).getD "")) := by
  constructor
  · refine ⟨c.headerLines ++
        ((List.range c.lines.length).take i).flatMap c.rowBlock,
      ((List.range c.lines.length).drop (i + 1)).flatMap c.rowBlock ++
        [c.footerLine], ?_⟩
    rw [Context.render, Context.bodyLines,
      range_flatMap_split c.lines.length c.rowBlock i h]
    simp [Context.rowBlock, List.append_assoc]
  · intro hl
    rw [Context.underlineRow, in_colour_id, in_colour_id, padLeft_empty]

/-- C2 witness: at linenumber padding 1, a highlight with column 1 and
length 2 yields the underline row with a width-1 blank gutter cell, the
connector, one space and two underline characters. -/
theorem claimC2_witness :
    Context.underlineRow
        (Context.linenumber_padding
          { lines := ["ab"], linenumber := none,
            highlights := [Highlight.new 0 1 2], file := none })
        (Highlight.new 0 1 2) = "  ·  ──" := by
  have h := (claimC2_underline_rows
    { lines := ["ab"], linenumber := none,
      highlights := [Highlight.new 0 1 2], file := none } 0 (by decide)).2
    (Highlight.new 0 1 2)
  exact h.trans (by decide)

/-- C3: with a file set, the render starts with the bracketed location header
`[file:line:column]` when both a linenumber and exactly one highlight exist
(the line being the linenumber plus the highlight's line offset and the column
that highlight's column), and plain `[file]` otherwise (zero or multiple
highlights, or no linenumber), followed by the blank gutter connector line;
without a file it starts with the bare opening connector glyph. -/
theorem claimC3_header (c : Context) :
    (∀ f hl l, c.file = some f → c.highlights = [hl] →
      c.linenumber = some l →
      c.render.headD "" =
          spaces c.linenumber_padding ++ " " ++ blue "╭──" ++ "[" ++ f ++
            (":" ++ toString (l + hl.line) ++ ":" ++ toString hl.column) ++
            "]" ∧
        c.render.getD 1 "" =
          spaces c.linenumber_padding ++ " " ++ blue "│") ∧
    (∀ f, c.file = some f →
      (c.highlights.length ≠ 1 ∨ c.linenumber = none) →
      c.render.headD "" =
          spaces c.linenumber_padding ++ " " ++ blue "╭──" ++ "[" ++ f ++
            "]" ∧
        c.render.getD 1 "" =
          spaces c.linenumber_padding ++ " " ++ blue "│") ∧
    (c.file = none →
      c.render.headD "" = spaces c.linenumber_padding ++ " " ++ blue "╷") := by
  refine ⟨?_, ?_, ?_⟩
  · intro f hl l hf hh hln
    rw [Context.render, Context.headerLines, hf, hh, hln]
    constructor <;> simp
  · intro f hf hor
    rw [Context.render, Context.headerLines, hf]
    rcases hor with hne | hnone
    · have hone : (c.highlights.length == 1) = false := by simpa using hne
      constructor <;> simp [hone]
    · rw [hnone]
      constructor <;> simp [ite_self]
  · intro hf
    rw [Context.render, Context.headerLines, hf]
    simp

/-- C3 witness: a context with a file, a linenumber and exactly one highlight
renders the `[file:line:column]` header. -/
theorem claimC3_witness :
    (Context.render
        { lines := ["ab"], linenumber := some 5,
          highlights := [Highlight.new 0 1 2],
          file := some "f.rs" }).headD "" = "  ╭──[f.rs:5:1]" := by
  have h := (claimC3_header
    { lines := ["ab"], linenumber := some 5,
      highlights := [Highlight.new 0 1 2], file := some "f.rs" }).1
    "f.rs" (Highlight.new 0 1 2) 5 rfl rfl rfl
  exact h.1.trans (by decide)

/-- C4: with linenumber `L` and `n` lines, the numbered gutter values rendered
for the `n` primary lines are exactly `L, L+1, …, L+n-1`, in that order (the
`i`-th body block carries the number `L + i`). -/
theorem claimC4_gutter_numbers (c : Context) (L : Nat)
    (h : c.linenumber = some L) :
    c.render = c.headerLines ++
      ((List.range c.lines.length).flatMap (fun i =>
        (padLeft (toString (L + i)) c.linenumber_padding ++ " " ++
            blue "│" ++ " " ++ c.lines.getD i "") ::
          (c.highlights.filter (fun hl => hl.line == i)).map
            (Context.underlineRow c.linenumber_padding))) ++
      [c.footerLine] := by
  rw [Context.render, Context.bodyLines]
  congr 2
  exact flatMap_congr_mem (fun i hi => by simp [Context.rowBlock, h, grey])

/-- C4 witness: linenumber 5 with two lines renders gutter numbers 5 and 6 in
order. -/
theorem claimC4_witness :
    Context.render
        { lines := ["a", "b"], linenumber := some 5, highlights := [],
          file := none } =
      ["  ╷", "5 │ a", "6 │ b", "  ╵"] := by
  have h := claimC4_gutter_numbers
    { lines := ["a", "b"], linenumber := some 5, highlights := [],
      file := none } 5 rfl
  exact h.trans (by decide)

/-- C1 counterexample: for the context with no lines and no linenumber the
claimed gutter width is `max 1 (ceil (log10 (0 + 1))) = 1`, but the rendered
rows are " ╷" and " ╵": each is a blank gutter cell of width
`linenumber_padding = 0` followed by one separator space and one connector
glyph, so its length is `0 + 2 = 2`, not the `1 + 2 = 3` the claim requires. -/
theorem claimC1_counterexample :
    Context.render
        { lines := [], linenumber := none, highlights := [], file := none } =
      [" ╷", " ╵"] ∧
    specGutterWidthC1
        { lines := [], linenumber := none, highlights := [], file := none } =
      1 ∧
    Context.linenumber_padding
        { lines := [], linenumber := none, highlights := [], file := none } =
      0 ∧
    (" ╷").length = 0 + 2 ∧
    (" ╷").length ≠
      specGutterWidthC1
          { lines := [], linenumber := none, highlights := [],
            file := none } + 2 := by
  refine ⟨by decide, by decide, by decide, by decide, by decide⟩

/-- C1 as amended: the gutter width actually used is
`ceil (log10 ((linenumber or 1) + number of lines))` — `Nat.clog 10` of that
sum — with no minimum-1 clamp; every blank gutter cell (header, underline and
footer rows) has exactly this width (the row continues with one separator
space), and every numbered gutter cell is only right-padded to it, so its
width is the maximum of this width and the number's digit count. -/
theorem claimC1_amended (c : Context) :
    c.linenumber_padding =
      Nat.clog 10 (c.linenumber.getD 1 + c.lines.length) ∧
    (∀ row ∈ c.render,
      (∃ rest, row = spaces c.linenumber_padding ++ " " ++ rest) ∨
      (∃ i, i < c.lines.length ∧ ∃ rest,
        row = padLeft (toString (c.linenumber.getD 0 + i))
            c.linenumber_padding ++ " " ++ rest)) ∧
    (∀ s w, (padLeft s w).length = max w s.length) := by
  refine ⟨ceilLog10_eq_clog _, ?_, fun s w => length_padLeft s w⟩
  intro row hrow
  rw [Context.render] at hrow
  rcases List.mem_append.mp hrow with h1 | hfoot
  · rcases List.mem_append.mp h1 with hh | hb
    · left
      rw [Context.headerLines] at hh
      rcases hcf : c.file with _ | f
      · rw [hcf] at hh
        simp only [List.mem_singleton] at hh
        exact ⟨blue "╷", by rw [hh]⟩
      · rw [hcf] at hh
        simp only [List.mem_cons, List.mem_singleton] at hh
        rcases hh with hh | hh | hh
        · refine ⟨blue "╭──" ++ "[" ++ f ++
            (if c.highlights.length == 1 then
              (match c.linenumber with
               | some l =>
                   ":" ++
                     toString
                       (l + (c.highlights.headD (Highlight.new 0 0 0)).line) ++
                     ":" ++
                     toString (c.highlights.headD (Highlight.new 0 0 0)).column
               | none => "")
            else "") ++ "]", ?_⟩
          rw [hh]
          simp only [String.append_assoc]
        · exact ⟨blue "│", by rw [hh]⟩
        · exact absurd hh (by simp)
    · rw [Context.bodyLines] at hb
      obtain ⟨i, hir, hrb⟩ := List.mem_flatMap.mp hb
      have hin : i < c.lines.length := List.mem_range.mp hir
      rw [Context.rowBlock] at hrb
      rcases List.mem_cons.mp hrb with hpri | hund
      · right
        refine ⟨i, hin, blue "│" ++ (" " ++ c.lines.getD i ""), ?_⟩
        rw [hpri]
        simp [grey, String.append_assoc]
      · left
        obtain ⟨hl, hmem, heq⟩ := List.mem_map.mp hund
        refine ⟨blue "·" ++ (" " ++ (spaces hl.column ++
          (hl.level.in_colour (dashes hl.length) ++
            hl.level.in_colour
              ((hl.note.map (fun n => " " ++ n)).getD "")))), ?_⟩
        rw [← heq, Context.underlineRow, padLeft_empty]
        simp [String.append_assoc]
  · left
    have hf : row = c.footerLine := by simpa using hfoot
    exact ⟨blue "╵", by rw [hf, Context.footerLine]⟩

/-- C1 amended witness: for a context with one line and linenumber 5 the
padding is 1, and the footer row "  ╵" is a blank gutter cell of exactly that
width followed by the separator and the closing glyph. -/
theorem claimC1_amended_witness :
    (∃ rest, "  ╵" =
      spaces (Context.linenumber_padding
        { lines := ["a"], linenumber := some 5, highlights := [],
          file := none }) ++ " " ++ rest) ∨
    (∃ i,
      i < ({ lines := ["a"], linenumber := some 5, highlights := [],
              file := none } : Context).lines.length ∧ ∃ rest,
      "  ╵" = padLeft
          (toString (({ lines := ["a"], linenumber := some 5,
                         highlights := [],
                         file := none } : Context).linenumber.getD 0 + i))
          (Context.linenumber_padding
            { lines := ["a"], linenumber := some 5, highlights := [],
              file := none }) ++ " " ++ rest) :=
  (claimC1_amended
    { lines := ["a"], linenumber := some 5, highlights := [],
      file := none }).2.1 "  ╵" (by decide)

/-- C8 counterexample: a highlight whose line offset (7) is not a valid index
into the single-line context still contributes output — with a file set it is
the context's only highlight, so the header becomes `[f.rs:12:2]` instead of
`[f.rs]`; hence the render differs from the render without that highlight. -/
theorem claimC8_counterexample :
    Context.render
        { lines := ["ab"], linenumber := some 5,
          highlights := [Highlight.new 7 2 3], file := some "f.rs" } ≠
      Context.render
        { lines := ["ab"], linenumber := some 5, highlights := [],
          file := some "f.rs" } ∧
    (Context.render
        { lines := ["ab"], linenumber := some 5,
          highlights := [Highlight.new 7 2 3],
          file := some "f.rs" }).headD "" = "  ╭──[f.rs:12:2]" ∧
    (Context.render
        { lines := ["ab"], linenumber := some 5, highlights := [],
          file := some "f.rs" }).headD "" = "  ╭──[f.rs]" := by
  refine ⟨by decide, by decide, by decide⟩

/-- C8 as amended: a highlight whose line offset is not a valid index into the
context's lines produces no underline row — the body rows are exactly those
obtained after discarding all out-of-range highlights — and rendering is total
and always yields at least the connector rows; however such a highlight still
participates in the file header (it is counted, and supplies the line/column
shown there), so it can contribute output when a file is set. -/
theorem claimC8_amended (c : Context) :
    Context.bodyLines c =
      Context.bodyLines
        { lines := c.lines, linenumber := c.linenumber,
          highlights :=
            c.highlights.filter (fun hl => decide (hl.line < c.lines.length)),
          file := c.file } ∧
    c.render ≠ [] := by
  constructor
  · rw [Context.bodyLines, Context.bodyLines]
    apply flatMap_congr_mem
    intro i hi
    have hin : i < c.lines.length := List.mem_range.mp hi
    rw [Context.rowBlock, Context.rowBlock]
    congr 1
    rw [List.filter_filter]
    apply congrArg
    apply List.filter_congr
    intro hl hmem
    rcases hres : hl.line == i with _ | _
    · simp [hres]
    · have : hl.line = i := by simpa using hres
      simp [hres, this, hin]
  · rw [Context.render]
    simp

end CustomErrorLib
